import Mathlib

/-!
Verification development for the one-page donations backend
(Express + Stripe + OpenAI + Nodemailer + SQLite, `server.js`).

The server code is shallowly embedded below.  Pure computations
(validation, JSON extraction, HTML rendering, store queries) are
translated directly from the source; outcomes of external calls
(Stripe signature verification, the LLM completion call, SMTP send,
the platform JSON parser and the platform currency formatter) enter
each request handler through an explicit per-request environment.
The SQLite table is a list of rows plus the AUTOINCREMENT counter.
-/

namespace DonationsBackend

/-- Configuration default: `(process.env.DEFAULT_CURRENCY || 'usd').toLowerCase()`. -/
def DEFAULT_CURRENCY : String := "usd"

/-- JavaScript string truthiness for `a || b` where `a` is a string:
the empty string is falsy. -/
def jsOr (a b : String) : String := if a = "" then b else a

/-- JavaScript `a?.x || b` where the optional chain may be absent (`none`)
and the present value is still subject to string truthiness. -/
def orElseStr (a : Option String) (b : String) : String :=
  match a with
  | some x => jsOr x b
  | none => b

/-- One row of the `donations` table (schema at `CREATE TABLE donations`). -/
structure Donation where
  id : Nat
  stripe_payment_intent : String
  stripe_checkout_session : String
  donor_email : String
  amount : Int
  currency : String
  name : String
  message : String
  impact_summary : String
  email_subject : String
  email_body : String
  emailed : Bool
  created_at : Nat
deriving DecidableEq

/-- The SQLite database: rows plus the AUTOINCREMENT counter for `id`. -/
structure ServerState where
  store : List Donation
  nextId : Nat
deriving DecidableEq

/-- A `checkout.session.completed` event object as read by the webhook
handler (`event.data.object`): the fields the handler dereferences. -/
structure StripeEvent where
  type : String
  payment_intent : String
  session_id : String
  customer_details_email : Option String
  customer_email : String
  amount_total : Int
  currency : Option String
  metadata_name : Option String
  metadata_message : Option String
deriving DecidableEq

/-- Outcome of the `openai.chat.completions.create` call: the promise
either rejects (network/API error) or resolves with the message content
(`res.choices?.[0]?.message?.content || ''`). -/
inductive LLMResult where
  | err : LLMResult
  | ok (content : String) : LLMResult
deriving DecidableEq

/-- The values the handler reads off the object returned by `JSON.parse`:
for each of `parsed.subject`, `parsed.body`, `parsed.impact`, either the
field is falsy/absent (`none`) or its JavaScript `String(...)` coercion. -/
structure ParsedFields where
  subject : Option String
  body : Option String
  impact : Option String
deriving DecidableEq

/-- Outcome of `JSON.parse(jsonText)` followed by field access:
`fail` when `JSON.parse` throws. -/
inductive ParseOutcome where
  | fail : ParseOutcome
  | success (fields : ParsedFields) : ParseOutcome
deriving DecidableEq

/-- Per-request environment of the webhook handler: outcomes of every
external call the handler makes, plus the platform primitives it uses.
`sig` is the result of `stripe.webhooks.constructEvent` (`none` = throws);
`impactCopySite` is `site?.impactCopy` after `cms.getOnePageContent().catch(() => null)`;
`jsonParse` is the platform `JSON.parse` plus property access;
`fmt` is the platform `Intl.NumberFormat(...).format` on (cents, code);
`sendOk` tells whether `transporter.sendMail` resolves;
`now` is the database clock used for `created_at DEFAULT CURRENT_TIMESTAMP`. -/
structure WebhookEnv where
  sig : Option StripeEvent
  impactCopySite : Option String
  llm : LLMResult
  jsonParse : String → ParseOutcome
  fmt : Int → String → String
  sendOk : Bool
  now : Nat

/-- `centsToDisplay(amount, currency)`: formats through the platform
`Intl` formatter after `(currency || DEFAULT_CURRENCY).toUpperCase()`. -/
def centsToDisplay (fmt : Int → String → String) (amount : Int) (currency : String) : String :=
  fmt amount (jsOr currency DEFAULT_CURRENCY).toUpper

/-- The character "left curly bracket". -/
def lbrace : Char := Char.ofNat 123

/-- The character "right curly bracket". -/
def rbrace : Char := Char.ofNat 125

/-- Index of the first occurrence of `c`. -/
def findFirstIdx (c : Char) : List Char → Option Nat
  | [] => none
  | x :: xs => if x = c then some 0 else (findFirstIdx c xs).map (· + 1)

/-- Index of the last occurrence of `c`. -/
def findLastIdx (c : Char) : List Char → Option Nat
  | [] => none
  | x :: xs =>
    match findLastIdx c xs with
    | some i => some (i + 1)
    | none => if x = c then some 0 else none

/-- `jsonText.match(/\x7b[\s\S]*\x7d/)`: the greedy regex matches from the
first left brace through the last right brace of the whole string, provided
some right brace occurs after the first left brace; when there is no match
the handler keeps `jsonText` unchanged. -/
def extractJson (s : String) : String :=
  let cs := s.data
  match findFirstIdx lbrace cs, findLastIdx rbrace cs with
  | some i, some j => if i < j then String.mk ((cs.drop i).take (j - i + 1)) else s
  | _, _ => s

/-- Result of `generateEmailAndImpact`: subject, body and impact strings. -/
structure EmailCopy where
  subject : String
  body : String
  impact : String
deriving DecidableEq

/-- The donation facts passed to `generateEmailAndImpact`
(`{ name, email, amount, currency, message }`). -/
structure DonationFacts where
  name : String
  email : String
  amount : Int
  currency : String
  message : String
deriving DecidableEq

/-- The deterministic catch-branch of `generateEmailAndImpact`: the
templated subject/body/impact used when `JSON.parse` throws. -/
def fallbackCopy (env : WebhookEnv) (f : DonationFacts) : EmailCopy :=
  let impactCopy :=
    orElseStr env.impactCopySite "Your donation fuels our mission to create measurable change."
  ⟨"Thank you for your gift!",
   "We deeply appreciate your donation of " ++ centsToDisplay env.fmt f.amount f.currency
     ++ ". " ++ impactCopy,
   "Your support powers tangible outcomes in our programs."⟩

/-- `generateEmailAndImpact({ name, email, amount, currency, message })`:
builds the prompt, performs the LLM call, extracts the first-to-last-brace
substring, parses it, and substitutes defaults for missing fields; when the
parse throws it returns the deterministic fallback copy.  A rejection of
the LLM call itself is not caught here and propagates (`none`). -/
def generateEmailAndImpact (env : WebhookEnv) (f : DonationFacts) : Option EmailCopy :=
  let impactCopy :=
    orElseStr env.impactCopySite "Your donation fuels our mission to create measurable change."
  let _sys := "You are a helpful nonprofit communications assistant. Write concise, warm, donor-centric copy. Keep paragraph lengths short."
  let _prompt := "Donor details:\n- Name: " ++ jsOr f.name "friend"
    ++ "\n- Email: " ++ f.email
    ++ "\n- Donation: " ++ centsToDisplay env.fmt f.amount f.currency
    ++ " (" ++ jsOr f.currency DEFAULT_CURRENCY ++ ")"
    ++ "\n- Note from donor: " ++ jsOr f.message "—"
    ++ "\n\nContext about our impact (from CMS):\n" ++ impactCopy
    ++ "\n\nTasks:\n1) Write an email subject line (<=55 chars) that is specific and personal."
    ++ "\n2) Write a short thank-you email (120–180 words) addressed to the donor by first name if provided."
    ++ "\n3) Write a 2–3 sentence impact summary translating the donation into tangible outcomes (assume reasonable conversions if not provided)."
    ++ "\n\nReturn as JSON with keys: subject, body, impact."
  match env.llm with
  | LLMResult.err => none
  | LLMResult.ok content =>
    let jsonText := extractJson content
    match env.jsonParse jsonText with
    | ParseOutcome.success p =>
      some ⟨p.subject.getD "Thank you for your gift!",
            p.body.getD "Thank you so much for your support.",
            p.impact.getD "Your gift makes a real difference."⟩
    | ParseOutcome.fail => some (fallbackCopy env f)

/-- Leading literal of the email HTML template. -/
def htmlHead : String := "\n    <div style=\"font-family:Inter,Arial,sans-serif;line-height:1.6;color:#111;padding:24px\">\n      <h2 style=\"margin:0 0 8px 0\">Thank you"

/-- `renderEmailHTML({ name, amount, currency, body, impact })`. -/
def renderEmailHTML (fmt : Int → String → String) (name : String) (amount : Int)
    (currency body impact : String) : String :=
  let display := centsToDisplay fmt amount currency
  htmlHead
  ++ (if name = "" then "" else ", " ++ name)
  ++ "! 💛</h2>\n      <p style=\"margin:0 0 12px 0\">We received your donation of <strong>"
  ++ display
  ++ "</strong>.</p>\n      <div style=\"background:#f8fafc;border-radius:12px;padding:16px;margin:16px 0\">"
  ++ body.replace "\n" "<br/>"
  ++ "</div>\n      <h3 style=\"margin:16px 0 8px 0\">Your impact</h3>\n      <p style=\"margin:0 0 16px 0\">"
  ++ impact
  ++ "</p>\n      <p style=\"font-size:12px;color:#64748b;margin-top:24px\">If you have any questions, just reply to this email.</p>\n    </div>\n  "

/-- `SELECT id FROM donations WHERE stripe_payment_intent = ?` — first row
whose payment-intent column equals the key. -/
def findByPI (store : List Donation) (pi : String) : Option Donation :=
  store.find? (fun r => r.stripe_payment_intent == pi)

/-- `SELECT * FROM donations WHERE id = ?`. -/
def findById (store : List Donation) (i : Nat) : Option Donation :=
  store.find? (fun r => r.id == i)

/-- The row with its `emailed` column set to 1. -/
def setEmailedRow (r : Donation) : Donation :=
  ⟨r.id, r.stripe_payment_intent, r.stripe_checkout_session, r.donor_email, r.amount,
   r.currency, r.name, r.message, r.impact_summary, r.email_subject, r.email_body,
   true, r.created_at⟩

/-- `UPDATE donations SET emailed = 1 WHERE id = ?`. -/
def setEmailed (store : List Donation) (i : Nat) : List Donation :=
  store.map (fun r => if r.id = i then setEmailedRow r else r)

/-- Number of rows carrying a given payment-intent identifier. -/
def countPI (store : List Donation) (pi : String) : Nat :=
  store.countP (fun r => r.stripe_payment_intent == pi)

/-- The donation facts the webhook handler derives from the event payload:
`customer_details?.email || customer_email`, `amount_total`,
`currency || DEFAULT_CURRENCY`, `metadata?.name || ''`, `metadata?.message || ''`. -/
def eventFacts (ev : StripeEvent) : DonationFacts :=
  ⟨orElseStr ev.metadata_name "",
   orElseStr ev.customer_details_email ev.customer_email,
   ev.amount_total,
   orElseStr ev.currency DEFAULT_CURRENCY,
   orElseStr ev.metadata_message ""⟩

/-- The row the webhook handler INSERTs (`emailed = 0`): generated subject
and impact, rendered HTML body, facts from the event, fresh id `nid`. -/
def mkDonationRow (env : WebhookEnv) (ev : StripeEvent) (gen : EmailCopy) (nid : Nat) : Donation :=
  let f := eventFacts ev
  let html := renderEmailHTML env.fmt f.name f.amount f.currency gen.body gen.impact
  ⟨nid, ev.payment_intent, ev.session_id, f.email, f.amount, f.currency, f.name,
   f.message, gen.impact, gen.subject, html, false, env.now⟩

/-- Response body of the webhook route. -/
inductive RespBody where
  | received : RespBody
  | sigError : RespBody
  | processingError : RespBody
deriving DecidableEq

/-- An email handed to `transporter.sendMail` that resolved successfully
(`toAddr` holds the `to` field of `sendMail`). -/
structure SentEmail where
  toAddr : String
  subject : String
  html : String
deriving DecidableEq

/-- Observable outcome of one delivery to `POST /webhook/stripe`:
database afterwards, HTTP status and body, emails successfully sent,
and how many times the LLM completion endpoint was called. -/
structure WebhookResult where
  state : ServerState
  status : Nat
  body : RespBody
  sent : List SentEmail
  llmCalls : Nat

/-- The `POST /webhook/stripe` handler.  Signature failure is answered 400
with no further action; non-`checkout.session.completed` events are
acknowledged; an existing row for the payment intent short-circuits to the
acknowledgment; otherwise copy is generated (a rejected LLM call escapes to
the outer catch and yields 500), the row is INSERTed with `emailed = 0`,
the email is sent and on success `emailed` is set to 1; a rejected send
also escapes to the outer catch and yields 500 after the INSERT. -/
def webhookStep (env : WebhookEnv) (s : ServerState) : WebhookResult :=
  match env.sig with
  | none => ⟨s, 400, RespBody.sigError, [], 0⟩
  | some ev =>
    if ev.type = "checkout.session.completed" then
      match findByPI s.store ev.payment_intent with
      | some _ => ⟨s, 200, RespBody.received, [], 0⟩
      | none =>
        match generateEmailAndImpact env (eventFacts ev) with
        | none => ⟨s, 500, RespBody.processingError, [], 1⟩
        | some gen =>
          let row := mkDonationRow env ev gen s.nextId
          if env.sendOk then
            ⟨⟨setEmailed (s.store ++ [row]) row.id, s.nextId + 1⟩, 200, RespBody.received,
             [⟨(eventFacts ev).email, gen.subject, row.email_body⟩], 1⟩
          else
            ⟨⟨s.store ++ [row], s.nextId + 1⟩, 500, RespBody.processingError, [], 1⟩
    else ⟨s, 200, RespBody.received, [], 0⟩

/-- A create-checkout-session request body as received by the route
(after `express.json()`): a JavaScript number and optional strings. -/
structure CreateReq where
  amount : Rat
  currency : Option String
  email : String
  name : Option String
  message : Option String

/-- Characters admitted anywhere in the local part of the zod email
pattern (letters, digits, underscore, apostrophe, plus, hyphen, dot). -/
def emailLocalChar (c : Char) : Bool :=
  c.isAlpha || c.isDigit || c = Char.ofNat 95 || c = Char.ofNat 39 || c = '+' || c = '-' || c = '.'

/-- Characters admitted as the final local-part character (no dot, no
apostrophe). -/
def emailLocalLast (c : Char) : Bool :=
  c.isAlpha || c.isDigit || c = Char.ofNat 95 || c = '+' || c = '-'

/-- A non-final domain label: alphanumeric head, alphanumeric/hyphen tail. -/
def emailLabelOk (l : List Char) : Bool :=
  match l with
  | [] => false
  | c :: rest => (c.isAlpha || c.isDigit) && rest.all (fun d => d.isAlpha || d.isDigit || d = '-')

/-- The final domain label: at least two letters. -/
def emailTldOk (l : List Char) : Bool :=
  decide (2 ≤ l.length) && l.all Char.isAlpha

/-- Does the character list contain two consecutive dots? -/
def hasDoubleDot : List Char → Bool
  | c :: d :: rest => (c = '.' && d = '.') || hasDoubleDot (d :: rest)
  | _ => false

/-- Split a character list on a separator character. -/
def splitOnChar (c : Char) : List Char → List (List Char)
  | [] => [[]]
  | x :: xs =>
    let rest := splitOnChar c xs
    if x = c then [] :: rest
    else
      match rest with
      | h :: t => (x :: h) :: t
      | [] => [[x]]

/-- `z.string().email()`: zod's email pattern — no leading dot, no two
consecutive dots anywhere, exactly one at-sign, a non-empty local part of
admitted characters ending in a non-dot character, and a domain of one or
more alphanumeric-hyphen labels followed by an alphabetic TLD of length at
least two. -/
def zEmailCheck (s : String) : Bool :=
  let cs := s.data
  (match cs with
   | [] => false
   | c :: _ => !(c == '.')) &&
  !(hasDoubleDot cs) &&
  (match splitOnChar (Char.ofNat 64) cs with
   | [localPart, domain] =>
     (!localPart.isEmpty) && localPart.all emailLocalChar &&
     (match localPart.getLast? with
      | some c => emailLocalLast c
      | none => false) &&
     (let labels := splitOnChar '.' domain
      decide (2 ≤ labels.length) &&
      labels.dropLast.all emailLabelOk &&
      (match labels.getLast? with
       | some t => emailTldOk t
       | none => false))
   | _ => false)

/-- `CreateSessionSchema.parse(req.body)` succeeds: `amount` is an integer,
positive, and at least 100; `email` passes the zod email format; the
optional `message` is at most 2000 characters; `currency` and `name` are
unconstrained optional strings. -/
def validateCreate (req : CreateReq) : Bool :=
  (req.amount.den == 1) && decide ((0 : Rat) < req.amount) && decide ((100 : Rat) ≤ req.amount) &&
  zEmailCheck req.email &&
  (match req.message with
   | none => true
   | some m => decide (m.length ≤ 2000))

/-- Outcome of `stripe.checkout.sessions.create`: either the call throws
with some error message, or it returns a session id and redirect URL. -/
structure SessionEnv where
  provider : Except String (String × String)

/-- Response body of the create-checkout-session route. -/
inductive CreateResp where
  | ok (id url : String) : CreateResp
  | err (msg : String) : CreateResp
deriving DecidableEq

/-- Observable outcome of `POST /donate/create-checkout-session`. -/
structure CreateResult where
  status : Nat
  body : CreateResp
  providerCalled : Bool
deriving DecidableEq

/-- The `POST /donate/create-checkout-session` handler: validate first;
any throw inside the try — a zod validation error as well as a provider
error — is caught and answered `400` with a JSON error body
(`err.message || 'Unable to create checkout session'`). -/
def createCheckoutSession (env : SessionEnv) (req : CreateReq) : CreateResult :=
  if validateCreate req then
    match env.provider with
    | Except.ok (sid, url) => ⟨200, CreateResp.ok sid url, true⟩
    | Except.error m => ⟨400, CreateResp.err (jsOr m "Unable to create checkout session"), true⟩
  else ⟨400, CreateResp.err "Invalid input", false⟩

/-- Response body of the resend route. -/
inductive ResendBody where
  | ok : ResendBody
  | notFound : ResendBody
deriving DecidableEq

/-- Observable outcome of `POST /admin/donations/:id/resend`: `resp = none`
models the handler dying on an unawaited send rejection (no response is
written); otherwise status and body. -/
structure ResendResult where
  state : ServerState
  resp : Option (Nat × ResendBody)
  sent : List SentEmail
  llmCalls : Nat

/-- The `POST /admin/donations/:id/resend` handler: look the row up by id;
404 when absent; otherwise re-send the stored `email_subject`/`email_body`
to the stored `donor_email` and answer ok.  No database write occurs. -/
def resendStep (sendOk : Bool) (i : Nat) (s : ServerState) : ResendResult :=
  match findById s.store i with
  | none => ⟨s, some (404, ResendBody.notFound), [], 0⟩
  | some row =>
    if sendOk then
      ⟨s, some (200, ResendBody.ok), [⟨row.donor_email, row.email_subject, row.email_body⟩], 0⟩
    else ⟨s, none, [], 0⟩

/-- The ordering of `SELECT * FROM donations ORDER BY created_at DESC`:
later creation time first. -/
def newestFirst (a b : Donation) : Prop := b.created_at ≤ a.created_at

instance : DecidableRel newestFirst := fun a b => Nat.decLe b.created_at a.created_at

instance : IsTotal Donation newestFirst := ⟨fun a b => Nat.le_total b.created_at a.created_at⟩

instance : IsTrans Donation newestFirst := ⟨fun _ _ _ hab hbc => Nat.le_trans hbc hab⟩

/-- The row list returned by `GET /admin/donations`. -/
def listDonations (s : ServerState) : List Donation :=
  List.insertionSort newestFirst s.store

/-- One inbound request that the server can process against the store. -/
inductive ServerOp where
  | webhook (env : WebhookEnv) : ServerOp
  | adminList : ServerOp
  | resend (sendOk : Bool) (i : Nat) : ServerOp
  | createSession (env : SessionEnv) (req : CreateReq) : ServerOp

/-- Effect of each request on the database (the create-session and admin
listing handlers never write to it). -/
def applyOp : ServerOp → ServerState → ServerState
  | ServerOp.webhook env, s => (webhookStep env s).state
  | ServerOp.adminList, s => s
  | ServerOp.resend sendOk i, s => (resendStep sendOk i s).state
  | ServerOp.createSession _ _, s => s

/-- Well-formedness delivered by AUTOINCREMENT: every stored id is below
the next fresh id. -/
def StoreWF (s : ServerState) : Prop := ∀ r ∈ s.store, r.id < s.nextId

/-! Sample data for concrete evaluations. -/

/-- A sample completed-checkout event. -/
def ev0 : StripeEvent :=
  ⟨"checkout.session.completed", "pi_1", "cs_1", some "d@example.com", "d@example.com",
   2000, some "usd", some "Ada", none⟩

/-- The empty database. -/
def s0 : ServerState := ⟨[], 1⟩

/-- A sample stored donation row. -/
def d1 : Donation :=
  ⟨1, "pi_a", "cs_a", "a@x.com", 100, "usd", "", "", "imp", "subj", "body", false, 10⟩

/-- A later-created sample row. -/
def d2 : Donation :=
  ⟨2, "pi_b", "cs_b", "b@x.com", 200, "usd", "", "", "imp2", "subj2", "body2", true, 20⟩

/-- A database holding `d1`. -/
def s1 : ServerState := ⟨[d1], 2⟩

/-- A database holding `d1` and `d2`. -/
def s2 : ServerState := ⟨[d1, d2], 3⟩

/-- A webhook environment whose signature verification throws. -/
def env4 : WebhookEnv :=
  ⟨none, none, LLMResult.err, fun _ => ParseOutcome.fail, fun _ _ => "$20.00", true, 0⟩

/-- A provider that accepts the session-creation call. -/
def envP : SessionEnv := ⟨Except.ok ("cs_1", "https://pay.example")⟩

/-- A provider whose session-creation call throws. -/
def envErr : SessionEnv := ⟨Except.error "stripe down"⟩

/-- A request below the amount threshold. -/
def reqLow : CreateReq := ⟨50, none, "a@example.com", none, none⟩

/-- A well-formed request. -/
def reqOk : CreateReq := ⟨2000, none, "a@example.com", none, none⟩

/-- A message one character over the cap. -/
def longMsg : String := String.mk (List.replicate 2001 (Char.ofNat 97))

/-- A request whose message exceeds the cap. -/
def reqLong : CreateReq := ⟨2000, none, "a@example.com", none, some longMsg⟩

/-- Failing signature verification short-circuits the whole handler. -/
lemma webhookStep_sig_none (env : WebhookEnv) (s : ServerState) (h : env.sig = none) :
    webhookStep env s = ⟨s, 400, RespBody.sigError, [], 0⟩ := by
  unfold webhookStep
  rw [h]

/-- Claim C4: a webhook request whose signature does not verify is answered
400 and nothing else happens: the store is untouched, no email is sent and
the LLM is never called. -/
theorem webhook_bad_signature (env : WebhookEnv) (s : ServerState) (h : env.sig = none) :
    webhookStep env s = ⟨s, 400, RespBody.sigError, [], 0⟩ :=
  webhookStep_sig_none env s h

/-- Witness for C4 at a concrete environment and the empty store. -/
theorem webhook_bad_signature_witness :
    env4.sig = none ∧ webhookStep env4 s0 = ⟨s0, 400, RespBody.sigError, [], 0⟩ :=
  ⟨rfl, webhook_bad_signature env4 s0 rfl⟩

/-- Claim C5: a create-checkout-session request whose amount is below 100
minor units, or is not a positive integer, is rejected 400 with an error
body and the payment provider is never contacted. -/
theorem create_session_rejects_low_amount (env : SessionEnv) (req : CreateReq)
    (h : req.amount < 100 ∨ req.amount.den ≠ 1 ∨ req.amount ≤ 0) :
    (createCheckoutSession env req).status = 400 ∧
    (createCheckoutSession env req).providerCalled = false ∧
    ∃ m, (createCheckoutSession env req).body = CreateResp.err m := by
  have hv : validateCreate req = false := by
    unfold validateCreate
    rcases h with h | h | h
    · have hd : decide ((100 : Rat) ≤ req.amount) = false := decide_eq_false (not_le.mpr h)
      simp [hd]
    · have hd : (req.amount.den == 1) = false := by simp [h]
      simp [hd]
    · have hd : decide ((0 : Rat) < req.amount) = false := decide_eq_false (not_lt.mpr h)
      simp [hd]
  unfold createCheckoutSession
  rw [hv]
  exact ⟨rfl, rfl, ⟨"Invalid input", rfl⟩⟩

/-- Witness for C5: amount 50 is rejected without a provider call. -/
theorem create_session_rejects_low_amount_witness :
    (reqLow.amount < 100 ∨ reqLow.amount.den ≠ 1 ∨ reqLow.amount ≤ 0) ∧
    (createCheckoutSession envP reqLow).status = 400 ∧
    (createCheckoutSession envP reqLow).providerCalled = false ∧
    ∃ m, (createCheckoutSession envP reqLow).body = CreateResp.err m :=
  ⟨Or.inl (by norm_num [reqLow]),
   create_session_rejects_low_amount envP reqLow (Or.inl (by norm_num [reqLow]))⟩

/-- Claim C6 (amended): the optional message is length-capped at 2000
characters — any request whose message exceeds that is rejected with a
client error before the provider is contacted. -/
theorem create_session_caps_message (env : SessionEnv) (req : CreateReq) (m : String)
    (h1 : req.message = some m) (h2 : 2000 < m.length) :
    (createCheckoutSession env req).status = 400 ∧
    (createCheckoutSession env req).providerCalled = false := by
  have hv : validateCreate req = false := by
    unfold validateCreate
    rw [h1]
    have hd : decide (m.length ≤ 2000) = false := decide_eq_false (not_le.mpr h2)
    simp [hd]
  unfold createCheckoutSession
  rw [hv]
  exact ⟨rfl, rfl⟩

/-- Witness for amended C6: a 2001-character message is rejected. -/
theorem create_session_caps_message_witness :
    reqLong.message = some longMsg ∧ 2000 < longMsg.length ∧
    (createCheckoutSession envP reqLong).status = 400 ∧
    (createCheckoutSession envP reqLong).providerCalled = false := by
  have hlen : 2000 < longMsg.length := by
    show 2000 < (List.replicate 2001 (Char.ofNat 97)).length
    rw [List.length_replicate]
    norm_num
  exact ⟨rfl, hlen, create_session_caps_message envP reqLong longMsg rfl hlen⟩

/-- Counterexample to C6 as stated: it is false that some finite bound
exists past which a too-long name is rejected by input validation — for
every proposed bound, the request with amount 2000, a valid email, and a
name of length one more than the bound still validates. -/
theorem create_session_name_uncapped_cex :
    ¬ ∃ B : Nat, ∀ req : CreateReq, ∀ n : String,
        req.name = some n → B < n.length → validateCreate req = false := by
  intro h
  obtain ⟨B, hB⟩ := h
  have hlen : B < (String.mk (List.replicate (B + 1) (Char.ofNat 97))).length := by
    show B < (List.replicate (B + 1) (Char.ofNat 97)).length
    rw [List.length_replicate]
    exact Nat.lt_succ_self B
  have hval := hB ⟨2000, none, "a@example.com",
    some (String.mk (List.replicate (B + 1) (Char.ofNat 97))), none⟩
    (String.mk (List.replicate (B + 1) (Char.ofNat 97))) rfl hlen
  have htrue : validateCreate ⟨2000, none, "a@example.com",
    some (String.mk (List.replicate (B + 1) (Char.ofNat 97))), none⟩ = true := rfl
  rw [htrue] at hval
  cases hval

/-- Claim C7: the admin listing returns all stored rows, and whenever one
returned row was created strictly later than another, the later one appears
at a strictly earlier position. -/
theorem admin_list_newest_first (s : ServerState) :
    (listDonations s).Perm s.store ∧
    ∀ i j : Nat, ∀ x y : Donation,
      (listDonations s).get? i = some x → (listDonations s).get? j = some y →
      y.created_at < x.created_at → i < j := by
  constructor
  · exact List.perm_insertionSort newestFirst s.store
  · intro i j x y hx hy hlt
    have hs : (listDonations s).Sorted newestFirst :=
      List.sorted_insertionSort newestFirst s.store
    obtain ⟨hi, hgx⟩ := List.get?_eq_some.mp hx
    obtain ⟨hj, hgy⟩ := List.get?_eq_some.mp hy
    by_contra hij
    push_neg at hij
    rcases Nat.lt_or_ge j i with hji | hji
    · have hrel := hs.rel_get_of_lt (Fin.mk_lt_mk.mpr hji : (⟨j, hj⟩ : Fin _) < ⟨i, hi⟩)
      rw [hgx, hgy] at hrel
      exact absurd hrel (not_le.mpr hlt)
    · have hij' : j = i := Nat.le_antisymm hij hji
      subst hij'
      rw [hx] at hy
      injection hy with he
      rw [he] at hlt
      exact absurd hlt (lt_irrefl _)

/-- Witness for C7: on a concrete two-row store the later-created row is
listed first. -/
theorem admin_list_newest_first_witness :
    (listDonations s2).get? 0 = some d2 ∧ (listDonations s2).get? 1 = some d1 ∧ (0 : Nat) < 1 :=
  ⟨by decide, by decide,
   (admin_list_newest_first s2).2 0 1 d2 d1 (by decide) (by decide) (by decide)⟩

/-- Claim C9: resend never writes to the store and never calls the copy
generator; a missing id is answered 404 with no side effects; an existing
row is re-sent exactly as persisted (stored recipient, subject, body). -/
theorem resend_uses_stored_copy (s : ServerState) (i : Nat) (b : Bool) :
    (resendStep b i s).state = s ∧ (resendStep b i s).llmCalls = 0 ∧
    (findById s.store i = none →
      resendStep b i s = ⟨s, some (404, ResendBody.notFound), [], 0⟩) ∧
    (∀ row, findById s.store i = some row → b = true →
      resendStep b i s = ⟨s, some (200, ResendBody.ok),
        [⟨row.donor_email, row.email_subject, row.email_body⟩], 0⟩) := by
  unfold resendStep
  cases hf : findById s.store i with
  | none =>
    refine ⟨rfl, rfl, fun _ => rfl, ?_⟩
    intro row hrow _
    cases hrow
  | some row =>
    cases b with
    | false =>
      refine ⟨rfl, rfl, ?_, ?_⟩
      · intro h; cases h
      · intro row' _ hb; cases hb
    | true =>
      refine ⟨rfl, rfl, ?_, ?_⟩
      · intro h; cases h
      · intro row' hrow' _
        injection hrow' with he
        subst he
        rfl

/-- Witness for C9 at a concrete one-row store. -/
theorem resend_uses_stored_copy_witness :
    findById s1.store 1 = some d1 ∧
    resendStep true 1 s1 = ⟨s1, some (200, ResendBody.ok), [⟨"a@x.com", "subj", "body"⟩], 0⟩ :=
  ⟨rfl, (resend_uses_stored_copy s1 1 true).2.2.2 d1 rfl rfl⟩

/-- Claim C10: the create-checkout-session endpoint answers either 200 or
400 with a JSON error body — never a 5xx — and in particular a provider
error after successful validation is also answered 400. -/
theorem create_session_never_5xx (env : SessionEnv) (req : CreateReq) :
    ((createCheckoutSession env req).status = 200 ∨
      ((createCheckoutSession env req).status = 400 ∧
       ∃ m, (createCheckoutSession env req).body = CreateResp.err m)) ∧
    (∀ m, env.provider = Except.error m →
      (createCheckoutSession env req).status = 400 ∧
      ∃ mm, (createCheckoutSession env req).body = CreateResp.err mm) := by
  unfold createCheckoutSession
  by_cases hv : validateCreate req
  · rw [if_pos hv]
    cases hp : env.provider with
    | ok pair =>
      cases pair with
      | mk sid url =>
        refine ⟨Or.inl rfl, ?_⟩
        intro m hm
        exact Except.noConfusion hm
    | error m =>
      exact ⟨Or.inr ⟨rfl, ⟨jsOr m "Unable to create checkout session", rfl⟩⟩,
        fun m' _ => ⟨rfl, ⟨jsOr m "Unable to create checkout session", rfl⟩⟩⟩
  · rw [if_neg hv]
    exact ⟨Or.inr ⟨rfl, ⟨"Invalid input", rfl⟩⟩, fun m _ => ⟨rfl, ⟨"Invalid input", rfl⟩⟩⟩

/-- Witness for C10: a provider outage on a valid request is answered 400. -/
theorem create_session_never_5xx_witness :
    envErr.provider = Except.error "stripe down" ∧
    (createCheckoutSession envErr reqOk).status = 400 :=
  ⟨rfl, ((create_session_never_5xx envErr reqOk).2 "stripe down" rfl).1⟩

/-! Helper lemmas about the webhook handler. -/

/-- When the LLM call resolves, `generateEmailAndImpact` returns some copy. -/
lemma gen_some (env : WebhookEnv) (f : DonationFacts) (c : String)
    (h : env.llm = LLMResult.ok c) : ∃ gen, generateEmailAndImpact env f = some gen := by
  unfold generateEmailAndImpact
  rw [h]
  dsimp only
  cases env.jsonParse (extractJson c) with
  | fail => exact ⟨_, rfl⟩
  | success p => exact ⟨_, rfl⟩

/-- When the LLM call resolves but the parse throws, the result is exactly
the deterministic fallback copy. -/
lemma gen_eq_of_parse_fail (env : WebhookEnv) (f : DonationFacts) (c : String)
    (hl : env.llm = LLMResult.ok c)
    (hp : env.jsonParse (extractJson c) = ParseOutcome.fail) :
    generateEmailAndImpact env f = some (fallbackCopy env f) := by
  unfold generateEmailAndImpact
  rw [hl]
  dsimp only
  rw [hp]

/-- When the LLM call rejects, `generateEmailAndImpact` propagates. -/
lemma gen_none_of_err (env : WebhookEnv) (f : DonationFacts)
    (hl : env.llm = LLMResult.err) : generateEmailAndImpact env f = none := by
  unfold generateEmailAndImpact
  rw [hl]

/-- Behaviour of the webhook handler on a valid, fresh, copy-generating
delivery: INSERT and, depending on the send outcome, either the emailed
update with acknowledgment or a 500 with the row left at `emailed = 0`. -/
lemma webhookStep_fresh (env : WebhookEnv) (s : ServerState) (ev : StripeEvent) (gen : EmailCopy)
    (hsig : env.sig = some ev) (htype : ev.type = "checkout.session.completed")
    (hnone : findByPI s.store ev.payment_intent = none)
    (hgen : generateEmailAndImpact env (eventFacts ev) = some gen) :
    webhookStep env s =
      if env.sendOk = true then
        ⟨⟨setEmailed (s.store ++ [mkDonationRow env ev gen s.nextId]) s.nextId, s.nextId + 1⟩,
         200, RespBody.received,
         [⟨(eventFacts ev).email, gen.subject, (mkDonationRow env ev gen s.nextId).email_body⟩], 1⟩
      else
        ⟨⟨s.store ++ [mkDonationRow env ev gen s.nextId], s.nextId + 1⟩,
         500, RespBody.processingError, [], 1⟩ := by
  unfold webhookStep
  rw [hsig]
  dsimp only
  rw [if_pos htype, hnone]
  dsimp only
  rw [hgen]
  rfl

/-- Behaviour of the webhook handler on a duplicate delivery: the existing
row short-circuits everything. -/
lemma webhookStep_dup (env : WebhookEnv) (s : ServerState) (ev : StripeEvent) (r : Donation)
    (hsig : env.sig = some ev) (htype : ev.type = "checkout.session.completed")
    (hfound : findByPI s.store ev.payment_intent = some r) :
    webhookStep env s = ⟨s, 200, RespBody.received, [], 0⟩ := by
  unfold webhookStep
  rw [hsig]
  dsimp only
  rw [if_pos htype, hfound]

/-- `setEmailedRow` does not change the payment-intent column. -/
lemma setEmailedRow_pi (r : Donation) :
    (setEmailedRow r).stripe_payment_intent = r.stripe_payment_intent := rfl

/-- The emailed UPDATE preserves the per-payment-intent row count. -/
lemma setEmailed_countPI (l : List Donation) (i : Nat) (pi : String) :
    countPI (setEmailed l i) pi = countPI l pi := by
  unfold countPI setEmailed
  induction l with
  | nil => rfl
  | cons a t ih =>
    rw [List.map_cons, List.countP_cons, List.countP_cons, ih]
    congr 1
    by_cases ha : a.id = i
    · rw [if_pos ha]
      rfl
    · rw [if_neg ha]

/-- Row counts add over list append. -/
lemma countPI_append (l1 l2 : List Donation) (pi : String) :
    countPI (l1 ++ l2) pi = countPI l1 pi + countPI l2 pi := by
  unfold countPI
  simp

/-- An unsuccessful lookup means zero rows carry the key. -/
lemma countPI_zero_of_find_none {l : List Donation} {pi : String}
    (h : findByPI l pi = none) : countPI l pi = 0 := by
  unfold findByPI at h
  unfold countPI
  rw [List.countP_eq_zero]
  exact List.find?_eq_none.mp h

/-- A singleton with the key counts one. -/
lemma countPI_singleton (row : Donation) (pi : String)
    (hp : row.stripe_payment_intent = pi) : countPI [row] pi = 1 := by
  unfold countPI
  simp [List.countP_cons, hp]

/-- Appending a row with the key after an unsuccessful lookup makes the
lookup find exactly that row. -/
lemma findByPI_append_none (l : List Donation) (row : Donation) (pi : String)
    (h : findByPI l pi = none) (hp : row.stripe_payment_intent = pi) :
    findByPI (l ++ [row]) pi = some row := by
  unfold findByPI at *
  rw [List.find?_append, h]
  simp [List.find?, hp]

/-- A stored row carrying the key makes the lookup succeed. -/
lemma findByPI_isSome_of_mem (l : List Donation) (r : Donation) {pi : String}
    (hm : r ∈ l) (hp : r.stripe_payment_intent = pi) :
    ∃ r', findByPI l pi = some r' := by
  cases hf : findByPI l pi with
  | some r' => exact ⟨r', rfl⟩
  | none =>
    unfold findByPI at hf
    have hnot := List.find?_eq_none.mp hf r hm
    exact absurd (by simp [hp]) hnot

/-- The updated fresh row is a member of the updated store. -/
lemma setEmailedRow_mem_setEmailed (l : List Donation) (row : Donation) (i : Nat)
    (hrow : row ∈ l) (hid : row.id = i) : setEmailedRow row ∈ setEmailed l i := by
  unfold setEmailed
  exact List.mem_map.mpr ⟨row, hrow, by simp [hid]⟩

set_option maxRecDepth 4096 in
/-- The rendered email HTML is never the empty string. -/
lemma renderEmailHTML_ne_empty (fmt : Int → String → String) (name : String) (amount : Int)
    (currency body impact : String) :
    renderEmailHTML fmt name amount currency body impact ≠ "" := by
  unfold renderEmailHTML
  intro h
  have hlen := congrArg String.length h
  simp only [String.length_append] at hlen
  have hh : 0 < htmlHead.length := by decide
  rw [show ("" : String).length = 0 from rfl] at hlen
  omega

/-- Claim C1 (amended): when the LLM call resolves but its output is
malformed (the JSON parse throws), the deterministic fallback subject,
body and impact are used and a row is persisted with non-empty
subject/body/impact fields; finalization continues. -/
theorem webhook_parse_failure_fallback (env : WebhookEnv) (s : ServerState) (ev : StripeEvent)
    (c : String)
    (hsig : env.sig = some ev) (htype : ev.type = "checkout.session.completed")
    (hnone : findByPI s.store ev.payment_intent = none)
    (hllm : env.llm = LLMResult.ok c)
    (hparse : env.jsonParse (extractJson c) = ParseOutcome.fail) :
    generateEmailAndImpact env (eventFacts ev) = some (fallbackCopy env (eventFacts ev)) ∧
    (fallbackCopy env (eventFacts ev)).subject = "Thank you for your gift!" ∧
    (fallbackCopy env (eventFacts ev)).impact =
      "Your support powers tangible outcomes in our programs." ∧
    ∃ row ∈ (webhookStep env s).state.store,
      row.stripe_payment_intent = ev.payment_intent ∧
      row.email_subject = (fallbackCopy env (eventFacts ev)).subject ∧
      row.impact_summary = (fallbackCopy env (eventFacts ev)).impact ∧
      row.email_body = renderEmailHTML env.fmt (eventFacts ev).name (eventFacts ev).amount
        (eventFacts ev).currency (fallbackCopy env (eventFacts ev)).body
        (fallbackCopy env (eventFacts ev)).impact ∧
      row.email_subject ≠ "" ∧ row.email_body ≠ "" ∧ row.impact_summary ≠ "" := by
  have hgen := gen_eq_of_parse_fail env (eventFacts ev) c hllm hparse
  have hfresh := webhookStep_fresh env s ev (fallbackCopy env (eventFacts ev)) hsig htype hnone hgen
  refine ⟨hgen, rfl, rfl, ?_⟩
  by_cases hs : env.sendOk = true
  · rw [hfresh, if_pos hs]
    refine ⟨setEmailedRow (mkDonationRow env ev (fallbackCopy env (eventFacts ev)) s.nextId),
      ?_, rfl, rfl, rfl, rfl, ?_, ?_, ?_⟩
    · exact setEmailedRow_mem_setEmailed _ _ _
        (List.mem_append_right _ (List.mem_singleton.mpr rfl)) rfl
    · exact (by decide : ("Thank you for your gift!" : String) ≠ "")
    · exact renderEmailHTML_ne_empty _ _ _ _ _ _
    · exact (by decide : ("Your support powers tangible outcomes in our programs." : String) ≠ "")
  · rw [hfresh, if_neg hs]
    refine ⟨mkDonationRow env ev (fallbackCopy env (eventFacts ev)) s.nextId,
      List.mem_append_right _ (List.mem_singleton.mpr rfl), rfl, rfl, rfl, rfl, ?_, ?_, ?_⟩
    · exact (by decide : ("Thank you for your gift!" : String) ≠ "")
    · exact renderEmailHTML_ne_empty _ _ _ _ _ _
    · exact (by decide : ("Your support powers tangible outcomes in our programs." : String) ≠ "")

/-- Environment for the C1 witness: malformed model output, failing send. -/
def env1w : WebhookEnv :=
  ⟨some ev0, none, LLMResult.ok "no json here", fun _ => ParseOutcome.fail,
   fun _ _ => "$20.00", false, 5⟩

/-- Witness for amended C1: a concrete malformed-output delivery persists a
row with the fallback copy and non-empty fields. -/
theorem webhook_parse_failure_fallback_witness :
    env1w.sig = some ev0 ∧ env1w.llm = LLMResult.ok "no json here" ∧
    (∃ row ∈ (webhookStep env1w s0).state.store,
      row.stripe_payment_intent = ev0.payment_intent ∧
      row.email_subject = (fallbackCopy env1w (eventFacts ev0)).subject ∧
      row.impact_summary = (fallbackCopy env1w (eventFacts ev0)).impact ∧
      row.email_body = renderEmailHTML env1w.fmt (eventFacts ev0).name (eventFacts ev0).amount
        (eventFacts ev0).currency (fallbackCopy env1w (eventFacts ev0)).body
        (fallbackCopy env1w (eventFacts ev0)).impact ∧
      row.email_subject ≠ "" ∧ row.email_body ≠ "" ∧ row.impact_summary ≠ "") :=
  ⟨rfl, rfl,
   (webhook_parse_failure_fallback env1w s0 ev0 "no json here" rfl rfl rfl rfl rfl).2.2.2⟩

/-- Environment for the C1 counterexample: the LLM call itself rejects. -/
def env1cex : WebhookEnv :=
  ⟨some ev0, none, LLMResult.err, fun _ => ParseOutcome.fail, fun _ _ => "$20.00", true, 5⟩

/-- Counterexample to C1 as stated: on a network/API error of the LLM call
(promise rejection) the handler aborts with 500 and persists nothing — no
fallback is applied for this failure mode. -/
theorem webhook_llm_error_aborts_cex :
    env1cex.llm = LLMResult.err ∧
    (webhookStep env1cex s0).state.store = [] ∧
    (webhookStep env1cex s0).status = 500 ∧
    (webhookStep env1cex s0).sent = [] :=
  ⟨rfl, rfl, rfl, rfl⟩

/-- Claim C2 (amended): a send failure does not roll back the freshly
persisted row and leaves it at `emailed = false`, but the handler answers
500 (not the `received` acknowledgment); only on a successful send is the
row marked `emailed = true` and the acknowledgment returned. -/
theorem webhook_send_failure_persists (env : WebhookEnv) (s : ServerState) (ev : StripeEvent)
    (c : String)
    (hsig : env.sig = some ev) (htype : ev.type = "checkout.session.completed")
    (hnone : findByPI s.store ev.payment_intent = none)
    (hllm : env.llm = LLMResult.ok c) :
    ∃ gen, generateEmailAndImpact env (eventFacts ev) = some gen ∧
      (env.sendOk = false →
        (webhookStep env s).status = 500 ∧
        (webhookStep env s).body = RespBody.processingError ∧
        (webhookStep env s).sent = [] ∧
        mkDonationRow env ev gen s.nextId ∈ (webhookStep env s).state.store ∧
        (mkDonationRow env ev gen s.nextId).emailed = false) ∧
      (env.sendOk = true →
        (webhookStep env s).status = 200 ∧
        (webhookStep env s).body = RespBody.received ∧
        setEmailedRow (mkDonationRow env ev gen s.nextId) ∈ (webhookStep env s).state.store ∧
        (setEmailedRow (mkDonationRow env ev gen s.nextId)).emailed = true) := by
  obtain ⟨gen, hgen⟩ := gen_some env (eventFacts ev) c hllm
  have hfresh := webhookStep_fresh env s ev gen hsig htype hnone hgen
  refine ⟨gen, hgen, ?_, ?_⟩
  · intro hs
    rw [hfresh, if_neg (by rw [hs]; exact Bool.false_ne_true)]
    exact ⟨rfl, rfl, rfl, List.mem_append_right _ (List.mem_singleton.mpr rfl), rfl⟩
  · intro hs
    rw [hfresh, if_pos hs]
    exact ⟨rfl, rfl,
      setEmailedRow_mem_setEmailed _ _ _
        (List.mem_append_right _ (List.mem_singleton.mpr rfl)) rfl, rfl⟩

/-- Environment for the C2 witness and counterexample: send fails. -/
def env2cex : WebhookEnv :=
  ⟨some ev0, none, LLMResult.ok "x", fun _ => ParseOutcome.fail, fun _ _ => "$20.00", false, 5⟩

/-- Witness for amended C2 at a concrete failing-send delivery. -/
theorem webhook_send_failure_persists_witness :
    env2cex.sig = some ev0 ∧ env2cex.sendOk = false ∧
    (∃ gen, generateEmailAndImpact env2cex (eventFacts ev0) = some gen ∧
      (env2cex.sendOk = false →
        (webhookStep env2cex s0).status = 500 ∧
        (webhookStep env2cex s0).body = RespBody.processingError ∧
        (webhookStep env2cex s0).sent = [] ∧
        mkDonationRow env2cex ev0 gen s0.nextId ∈ (webhookStep env2cex s0).state.store ∧
        (mkDonationRow env2cex ev0 gen s0.nextId).emailed = false) ∧
      (env2cex.sendOk = true →
        (webhookStep env2cex s0).status = 200 ∧
        (webhookStep env2cex s0).body = RespBody.received ∧
        setEmailedRow (mkDonationRow env2cex ev0 gen s0.nextId) ∈
          (webhookStep env2cex s0).state.store ∧
        (setEmailedRow (mkDonationRow env2cex ev0 gen s0.nextId)).emailed = true)) :=
  ⟨rfl, rfl, webhook_send_failure_persists env2cex s0 ev0 "x" rfl rfl rfl rfl⟩

/-- Counterexample to C2 as stated: on a send failure the handler answers
500, not the `received:true` acknowledgment (the row is persisted with
`emailed = false`, as the map over the store shows). -/
theorem webhook_send_failure_cex :
    (webhookStep env2cex s0).status = 500 ∧
    (webhookStep env2cex s0).body ≠ RespBody.received ∧
    (webhookStep env2cex s0).state.store.map
      (fun r => (r.stripe_payment_intent, r.emailed)) = [("pi_1", false)] :=
  ⟨rfl, by decide, rfl⟩

/-- Claim C3: two deliveries with the same payment intent — the first one
fresh and copy-generating — leave exactly one row for that identifier,
send at most one email in total, and the second delivery changes nothing,
calls no LLM, sends nothing, and acknowledges. -/
theorem webhook_idempotent (s : ServerState) (env1 env2 : WebhookEnv) (ev1 ev2 : StripeEvent)
    (c : String)
    (h1 : env1.sig = some ev1) (h2 : ev1.type = "checkout.session.completed")
    (h3 : env2.sig = some ev2) (h4 : ev2.type = "checkout.session.completed")
    (h5 : ev2.payment_intent = ev1.payment_intent)
    (h6 : findByPI s.store ev1.payment_intent = none)
    (h7 : env1.llm = LLMResult.ok c) :
    countPI (webhookStep env2 (webhookStep env1 s).state).state.store ev1.payment_intent = 1 ∧
    (webhookStep env1 s).sent.length +
      (webhookStep env2 (webhookStep env1 s).state).sent.length ≤ 1 ∧
    (webhookStep env2 (webhookStep env1 s).state).state = (webhookStep env1 s).state ∧
    (webhookStep env2 (webhookStep env1 s).state).status = 200 ∧
    (webhookStep env2 (webhookStep env1 s).state).body = RespBody.received ∧
    (webhookStep env2 (webhookStep env1 s).state).sent = [] ∧
    (webhookStep env2 (webhookStep env1 s).state).llmCalls = 0 := by
  obtain ⟨gen, hgen⟩ := gen_some env1 (eventFacts ev1) c h7
  have hfresh := webhookStep_fresh env1 s ev1 gen h1 h2 h6 hgen
  by_cases hs : env1.sendOk = true
  · rw [hfresh, if_pos hs]
    dsimp only
    have hmem : setEmailedRow (mkDonationRow env1 ev1 gen s.nextId) ∈
        setEmailed (s.store ++ [mkDonationRow env1 ev1 gen s.nextId]) s.nextId :=
      setEmailedRow_mem_setEmailed _ _ _
        (List.mem_append_right _ (List.mem_singleton.mpr rfl)) rfl
    obtain ⟨r', hr'⟩ := findByPI_isSome_of_mem _ _ hmem rfl
    have hdup := webhookStep_dup env2
      ⟨setEmailed (s.store ++ [mkDonationRow env1 ev1 gen s.nextId]) s.nextId, s.nextId + 1⟩
      ev2 r' h3 h4 (by rw [h5]; exact hr')
    rw [hdup]
    refine ⟨?_, by simp, rfl, rfl, rfl, rfl, rfl⟩
    rw [setEmailed_countPI, countPI_append, countPI_zero_of_find_none h6,
      countPI_singleton (mkDonationRow env1 ev1 gen s.nextId) ev1.payment_intent rfl]
  · rw [hfresh, if_neg hs]
    dsimp only
    have hfind : findByPI (s.store ++ [mkDonationRow env1 ev1 gen s.nextId])
        ev1.payment_intent = some (mkDonationRow env1 ev1 gen s.nextId) :=
      findByPI_append_none _ _ _ h6 rfl
    have hdup := webhookStep_dup env2
      ⟨s.store ++ [mkDonationRow env1 ev1 gen s.nextId], s.nextId + 1⟩
      ev2 (mkDonationRow env1 ev1 gen s.nextId) h3 h4 (by rw [h5]; exact hfind)
    rw [hdup]
    refine ⟨?_, by simp, rfl, rfl, rfl, rfl, rfl⟩
    rw [countPI_append, countPI_zero_of_find_none h6,
      countPI_singleton (mkDonationRow env1 ev1 gen s.nextId) ev1.payment_intent rfl]

/-- First-delivery environment for the C3 witness. -/
def env3a : WebhookEnv :=
  ⟨some ev0, none, LLMResult.ok "x", fun _ => ParseOutcome.fail, fun _ _ => "$20.00", true, 5⟩

/-- Second-delivery environment for the C3 witness. -/
def env3b : WebhookEnv :=
  ⟨some ev0, none, LLMResult.ok "y", fun _ => ParseOutcome.fail, fun _ _ => "$20.00", true, 6⟩

/-- Witness for C3 at two concrete deliveries of the same event. -/
theorem webhook_idempotent_witness :
    env3a.sig = some ev0 ∧ env3b.sig = some ev0 ∧
    findByPI s0.store ev0.payment_intent = none ∧
    countPI (webhookStep env3b (webhookStep env3a s0).state).state.store ev0.payment_intent = 1 ∧
    (webhookStep env3b (webhookStep env3a s0).state).sent = [] ∧
    (webhookStep env3b (webhookStep env3a s0).state).llmCalls = 0 :=
  ⟨rfl, rfl, rfl,
   (webhook_idempotent s0 env3a env3b ev0 ev0 "x" rfl rfl rfl rfl rfl rfl rfl).1,
   (webhook_idempotent s0 env3a env3b ev0 ev0 "x" rfl rfl rfl rfl rfl rfl rfl).2.2.2.2.2.1,
   (webhook_idempotent s0 env3a env3b ev0 ev0 "x" rfl rfl rfl rfl rfl rfl rfl).2.2.2.2.2.2⟩

/-- Claim C8: under the AUTOINCREMENT well-formedness of the store, every
request handler leaves every pre-existing row untouched (all fields,
including `emailed`), and any row that is marked `emailed = true`
afterwards either existed before or was created by a webhook delivery
whose send succeeded. -/
theorem record_immutable (op : ServerOp) (s : ServerState) (hwf : StoreWF s) :
    (∀ r ∈ s.store, r ∈ (applyOp op s).store) ∧
    (∀ r' ∈ (applyOp op s).store, r'.emailed = true →
      r' ∈ s.store ∨ ∃ env, op = ServerOp.webhook env ∧ env.sendOk = true) := by
  cases op with
  | adminList => exact ⟨fun r hr => hr, fun r' hr' _ => Or.inl hr'⟩
  | createSession env req => exact ⟨fun r hr => hr, fun r' hr' _ => Or.inl hr'⟩
  | resend b i =>
    have hst : (resendStep b i s).state = s := by
      unfold resendStep
      cases findById s.store i with
      | none => rfl
      | some row => cases b <;> rfl
    dsimp only [applyOp]
    rw [hst]
    exact ⟨fun r hr => hr, fun r' hr' _ => Or.inl hr'⟩
  | webhook env =>
    dsimp only [applyOp]
    cases hsig : env.sig with
    | none =>
      rw [webhookStep_sig_none env s hsig]
      exact ⟨fun r hr => hr, fun r' hr' _ => Or.inl hr'⟩
    | some ev =>
      by_cases ht : ev.type = "checkout.session.completed"
      · cases hf : findByPI s.store ev.payment_intent with
        | some r0 =>
          rw [webhookStep_dup env s ev r0 hsig ht hf]
          exact ⟨fun r hr => hr, fun r' hr' _ => Or.inl hr'⟩
        | none =>
          cases hg : generateEmailAndImpact env (eventFacts ev) with
          | none =>
            have habort : webhookStep env s = ⟨s, 500, RespBody.processingError, [], 1⟩ := by
              unfold webhookStep
              rw [hsig]
              dsimp only
              rw [if_pos ht, hf]
              dsimp only
              rw [hg]
            rw [habort]
            exact ⟨fun r hr => hr, fun r' hr' _ => Or.inl hr'⟩
          | some gen =>
            have hfresh := webhookStep_fresh env s ev gen hsig ht hf hg
            by_cases hsend : env.sendOk = true
            · rw [hfresh, if_pos hsend]
              dsimp only
              constructor
              · intro r hr
                unfold setEmailed
                exact List.mem_map.mpr ⟨r,
                  List.mem_append_left [mkDonationRow env ev gen s.nextId] hr,
                  by simp [Nat.ne_of_lt (hwf r hr)]⟩
              · intro r' hr' _
                unfold setEmailed at hr'
                obtain ⟨x, hx, hfx⟩ := List.mem_map.mp hr'
                rcases List.mem_append.mp hx with hxl | hxr
                · rw [if_neg (Nat.ne_of_lt (hwf x hxl))] at hfx
                  exact Or.inl (hfx ▸ hxl)
                · exact Or.inr ⟨env, rfl, hsend⟩
            · rw [hfresh, if_neg hsend]
              dsimp only
              constructor
              · exact fun r hr => List.mem_append_left _ hr
              · intro r' hr' he
                rcases List.mem_append.mp hr' with h | h
                · exact Or.inl h
                · have hx : r' = mkDonationRow env ev gen s.nextId := List.mem_singleton.mp h
                  rw [hx] at he
                  cases he
      · have hignore : webhookStep env s = ⟨s, 200, RespBody.received, [], 0⟩ := by
          unfold webhookStep
          rw [hsig]
          dsimp only
          rw [if_neg ht]
        rw [hignore]
        exact ⟨fun r hr => hr, fun r' hr' _ => Or.inl hr'⟩

/-- Witness for C8: a pre-existing row survives an operation unchanged. -/
theorem record_immutable_witness : d1 ∈ (applyOp ServerOp.adminList s1).store :=
  (record_immutable ServerOp.adminList s1
    (by
      intro r hr
      have he : r = d1 := List.mem_singleton.mp hr
      rw [he]
      decide)).1 d1 (List.mem_singleton.mpr rfl)

end DonationsBackend
